import Mathlib

/-!
Verification of the autobrr core against its specification.

This file shallowly embeds the parts of the source the claims are about:

* `internal/irc/service.go` — the network supervisor: the handlers map keyed
  by `(server, nickserv.account)`, the reconciliation function
  `checkIfNetworkRestartNeeded`, `UpdateNetwork`, `StopNetwork`,
  `StopAndRemoveNetwork`, `StopNetworkIfRunning`, `StartHandlers`,
  `StopHandlers`.
* `internal/http/auth.go` — the `login` and `test` HTTP handlers.
* `internal/indexer/definitions/red.yaml` — the Redacted parse definition
  (pattern, vars, torrenturl template), driven by an announce-parser engine
  modelled from the spec (the engine's own Go source is not part of the
  reviewed tree).

Go methods that mutate the service and perform I/O are modelled as pure
functions from a service state (plus the results of repository calls, passed
as explicit arguments) to a new state together with a trace of the session /
wire actions they perform, in program order.
-/

namespace Autobrr

/-- `domain.NickServ`: account and password used to identify. -/
structure NickServ where
  account : String
  password : String
  deriving DecidableEq, Repr

/-- `domain.IrcChannel`: name plus optional join password (empty = none). -/
structure IrcChannel where
  name : String
  password : String
  deriving DecidableEq, Repr

/-- `domain.IrcNetwork`, the fields `service.go` reads.  `channels` is an
`Option` so that Go's `network.Channels != nil` test (nil slice vs any
non-nil slice) can be translated exactly. -/
structure IrcNetwork where
  id : Int
  name : String
  server : String
  port : Nat
  tls : Bool
  pass : String
  inviteCommand : String
  nickServ : NickServ
  enabled : Bool
  channels : Option (List IrcChannel)
  deriving DecidableEq, Repr

/-- The channel list a nil slice iterates as: `nil` ranges like the empty
slice. -/
def IrcNetwork.channelList (n : IrcNetwork) : List IrcChannel :=
  n.channels.getD []

/-- `handlerKey{network.Server, network.NickServ.Account}`. -/
structure HandlerKey where
  server : String
  nick : String
  deriving DecidableEq, Repr

/-- The slice of a `Handler`'s state the supervisor touches: its current
network snapshot (`GetNetwork` / `SetNetwork` / `UpdateNetwork`), whether the
underlying client is connected (`client.Connected()`), and whether `Stop`
has been signalled. -/
structure Handler where
  network : IrcNetwork
  connected : Bool
  stopped : Bool
  deriving DecidableEq, Repr

/-- One observable operation on a live handler session or on the
supervisor's concurrency primitives, in the order the Go code performs
them. -/
inductive Action where
  /-- `existingHandler.UpdateNetwork(network)`: swap the snapshot before a
  restart. -/
  | updateNetworkH : Action
  /-- `existingHandler.Restart()`: full disconnect + reconnect. -/
  | restart : Action
  /-- `existingHandler.HandleNickChange(nick)`. -/
  | nickChange : String → Action
  /-- `existingHandler.HandleNickServIdentify(account, password)`. -/
  | nickServIdentify : String → String → Action
  /-- `existingHandler.HandlePartChannel(name)`: wire `PART`. -/
  | part : String → Action
  /-- `existingHandler.HandleJoinChannel(name, password)`: wire `JOIN`. -/
  | join : String → String → Action
  /-- `existingHandler.SetNetwork(network)` on the live session. -/
  | setNetwork : Action
  /-- `existingHandler.InitIndexers(definitions)`. -/
  | initIndexers : Action
  /-- `handler.Stop()` for the handler at this key. -/
  | stop : HandlerKey → Action
  /-- `go handler.Run()` spawned for this key. -/
  | spawnRun : HandlerKey → Action
  /-- `stopWG.Add(1)`. -/
  | wgAdd : Action
  /-- `stopWG.Done()`. -/
  | wgDone : Action
  /-- `stopWG.Wait()`: blocking on the barrier until tracked goroutines
  exit.  Never emitted by the source. -/
  | wgWait : Action
  deriving DecidableEq, Repr

/-- The supervisor state `service.go` mutates: the handlers map (as an
association list in insertion order) and the `stopWG` counter. -/
structure ServiceState where
  handlers : List (HandlerKey × Handler)
  stopWG : Int
  deriving DecidableEq, Repr

/-- Map lookup `s.handlers[key]`. -/
def findHandler (key : HandlerKey) : List (HandlerKey × Handler) → Option Handler
  | [] => none
  | (k, h) :: rest => if k = key then some h else findHandler key rest

/-- Replace the handler stored at `key` (no-op when absent). -/
def setHandler (key : HandlerKey) (h : Handler) :
    List (HandlerKey × Handler) → List (HandlerKey × Handler)
  | [] => []
  | (k, h0) :: rest =>
    if k = key then (k, h) :: rest else (k, h0) :: setHandler key h rest

/-- `delete(s.handlers, key)`. -/
def eraseHandler (key : HandlerKey) :
    List (HandlerKey × Handler) → List (HandlerKey × Handler)
  | [] => []
  | (k, h) :: rest =>
    if k = key then eraseHandler key rest else (k, h) :: eraseHandler key rest

/-- The key the service derives from a network:
`handlerKey{network.Server, network.NickServ.Account}`. -/
def IrcNetwork.key (n : IrcNetwork) : HandlerKey :=
  ⟨n.server, n.nickServ.account⟩

/-- The transport test of `checkIfNetworkRestartNeeded` (service.go:171-179):
restart when server, port, TLS or invite command changed.  The server
password (`Pass`) is not inspected. -/
def restartNeeded (handler network : IrcNetwork) : Bool :=
  handler.server != network.server || handler.port != network.port ||
    handler.tls != network.tls ||
    handler.inviteCommand != network.inviteCommand

/-- `channelsToLeave` (service.go:227-238): names of handler channels whose
name (compared exactly, no lowercasing) is not among the updated network's
channel names. -/
def channelsToLeave (handlerChannels networkChannels : List IrcChannel) :
    List String :=
  (handlerChannels.filter
    (fun hc => ! networkChannels.any (fun c => c.name == hc.name))).map
    (fun hc => hc.name)

/-- `channelsToJoin` (service.go:241-250): updated network channels whose
name (compared exactly) is not among the handler's channel names; the whole
channel struct is kept for the join password. -/
def channelsToJoin (handlerChannels networkChannels : List IrcChannel) :
    List IrcChannel :=
  networkChannels.filter
    (fun c => ! handlerChannels.any (fun hc => hc.name == c.name))

/-- ASCII lowercasing of one character, as `strings.ToLower` acts on the
ASCII channel names involved. -/
def lowerChar (c : Char) : Char :=
  if 65 ≤ c.toNat ∧ c.toNat ≤ 90 then Char.ofNat (c.toNat + 32) else c

/-- ASCII lowercasing of a string. -/
def lowerStr (s : String) : String := ⟨s.data.map lowerChar⟩

/-- Spec-side rendering of the claim's channel-diff (for comparison with
`channelsToLeave`): the channels to leave computed with both sides
lowercased, as the specification words it. -/
def specChannelsToLeave (handlerChannels networkChannels : List IrcChannel) :
    List String :=
  (handlerChannels.filter
    (fun hc => ! networkChannels.any
      (fun c => lowerStr c.name == lowerStr hc.name))).map
    (fun hc => hc.name)

/-- Spec-side rendering of the claim's channel-diff (for comparison with
`channelsToJoin`): the channels to join computed with both sides
lowercased, as the specification words it. -/
def specChannelsToJoin (handlerChannels networkChannels : List IrcChannel) :
    List IrcChannel :=
  networkChannels.filter
    (fun c => ! handlerChannels.any
      (fun hc => lowerStr hc.name == lowerStr c.name))

/-- The nick / nickserv step of `checkIfNetworkRestartNeeded`
(service.go:198-212): change nick when the account differs, else re-identify
when only the password differs. -/
def nickActions (handler network : IrcNetwork) : List Action :=
  if handler.nickServ.account ≠ network.nickServ.account then
    [Action.nickChange network.nickServ.account]
  else if handler.nickServ.password ≠ network.nickServ.password then
    [Action.nickServIdentify network.nickServ.account network.nickServ.password]
  else []

/-- `startNetwork` (service.go:112-157) in the branch where no handler
exists for the key (the only way `checkIfNetworkRestartNeeded` reaches it):
list channels from the repo, build a handler, store it, `stopWG.Add(1)`,
spawn `Run`, `stopWG.Done()`. -/
def startNetworkFresh (s : ServiceState) (network : IrcNetwork)
    (repoChannels : List IrcChannel) : ServiceState × List Action :=
  let network' := { network with channels := some repoChannels }
  let handler : Handler := ⟨network', false, false⟩
  (⟨s.handlers ++ [(network.key, handler)], s.stopWG + 1 - 1⟩,
    [Action.wgAdd, Action.spawnRun network.key, Action.wgDone])

/-- `checkIfNetworkRestartNeeded` (service.go:159-287).  Returns the new
supervisor state and the trace of session actions.  The Go function always
returns `nil`; `repoChannels` stands for `s.repo.ListChannels` in the
`startNetwork` branch. -/
def checkIfNetworkRestartNeeded (s : ServiceState) (network : IrcNetwork)
    (repoChannels : List IrcChannel) : ServiceState × List Action :=
  match findHandler network.key s.handlers with
  | some existingHandler =>
    if existingHandler.connected then
      let handler := existingHandler.network
      if restartNeeded handler network then
        -- reinitialize with the new config, then restart in a goroutine
        (⟨setHandler network.key { existingHandler with network := network }
            s.handlers, s.stopWG⟩,
          [Action.updateNetworkH, Action.restart])
      else
        let toLeave := channelsToLeave handler.channelList network.channelList
        let toJoin := channelsToJoin handler.channelList network.channelList
        (⟨setHandler network.key { existingHandler with network := network }
            s.handlers, s.stopWG⟩,
          nickActions handler network ++
            toLeave.map Action.part ++
            toJoin.map (fun c => Action.join c.name c.password) ++
            [Action.setNetwork, Action.initIndexers])
    else
      (s, [])
  | none => startNetworkFresh s network repoChannels

/-- `StopNetwork` (service.go:308-315): signal `Stop` when a handler exists;
always returns `nil`. -/
def StopNetwork (s : ServiceState) (key : HandlerKey) :
    Except String Unit × ServiceState × List Action :=
  match findHandler key s.handlers with
  | some handler =>
    (Except.ok (),
      ⟨setHandler key { handler with stopped := true } s.handlers, s.stopWG⟩,
      [Action.stop key])
  | none => (Except.ok (), s, [])

/-- `StopAndRemoveNetwork` (service.go:317-327): signal `Stop`, then delete
the map entry; always returns `nil`; a missing key is a silent no-op. -/
def StopAndRemoveNetwork (s : ServiceState) (key : HandlerKey) :
    Except String Unit × ServiceState × List Action :=
  match findHandler key s.handlers with
  | some _ =>
    (Except.ok (), ⟨eraseHandler key s.handlers, s.stopWG⟩, [Action.stop key])
  | none => (Except.ok (), s, [])

/-- `StopNetworkIfRunning` (service.go:329-336): identical body to
`StopNetwork`. -/
def StopNetworkIfRunning (s : ServiceState) (key : HandlerKey) :
    Except String Unit × ServiceState × List Action :=
  match findHandler key s.handlers with
  | some handler =>
    (Except.ok (),
      ⟨setHandler key { handler with stopped := true } s.handlers, s.stopWG⟩,
      [Action.stop key])
  | none => (Except.ok (), s, [])

/-- `UpdateNetwork` (service.go:477-512).  `storeChannelsRes` and
`updateRes` are the results of `repo.StoreNetworkChannels` and
`repo.UpdateNetwork`; `repoChannels` feeds a possible `startNetwork`.  An
early `return err` yields the error with the state untouched and no session
actions. -/
def UpdateNetwork (s : ServiceState) (network : IrcNetwork)
    (storeChannelsRes updateRes : Except String Unit)
    (repoChannels : List IrcChannel) :
    Except String Unit × ServiceState × List Action :=
  match network.channels, storeChannelsRes with
  | some _, Except.error e => (Except.error e, s, [])
  | _, _ =>
    match updateRes with
    | Except.error e => (Except.error e, s, [])
    | Except.ok _ =>
      if network.enabled then
        let (s', as) := checkIfNetworkRestartNeeded s network repoChannels
        (Except.ok (), s', as)
      else
        StopAndRemoveNetwork s network.key

/-- `StopHandlers` (service.go:103-110): iterate the handlers map calling
`handler.Stop()` in turn, then return.  No goroutine is spawned and
`stopWG.Wait()` is never called. -/
def StopHandlers (s : ServiceState) : ServiceState × List Action :=
  (⟨s.handlers.map (fun kh => (kh.1, { kh.2 with stopped := true })), s.stopWG⟩,
    s.handlers.map (fun kh => Action.stop kh.1))

/-- One iteration of the `StartHandlers` loop (service.go:63-100) for an
enabled network: build the handler, insert it, `stopWG.Add(1)`, spawn
`Run`, `stopWG.Done()` — the `Done` runs immediately in the loop body, not
when the goroutine exits. -/
def startHandlersStep (s : ServiceState) (network : IrcNetwork)
    (repoChannels : List IrcChannel) : ServiceState × List Action :=
  if network.enabled then
    let network' := { network with channels := some repoChannels }
    let handler : Handler := ⟨network', false, false⟩
    (⟨s.handlers ++ [(network.key, handler)], s.stopWG + 1 - 1⟩,
      [Action.wgAdd, Action.spawnRun network.key, Action.wgDone])
  else
    (s, [])

/-! ### `internal/http/auth.go`: the `login` and `test` handlers -/

/-- `domain.User` as decoded from the login body. -/
structure User where
  username : String
  password : String
  deriving DecidableEq, Repr

/-- `http.SameSite` values the handler uses. -/
inductive SameSite where
  | defaultMode : SameSite
  | lax : SameSite
  | strict : SameSite
  deriving DecidableEq, Repr

/-- The cookie-store options mutated by `login`. -/
structure CookieOptions where
  httpOnly : Bool
  secure : Bool
  sameSite : SameSite
  path : String
  deriving DecidableEq, Repr

/-- The session cookie written by `session.Save`: the store options in
effect plus the stored `authenticated` value. -/
structure SessionCookie where
  options : CookieOptions
  authenticated : Bool
  deriving DecidableEq, Repr

/-- A value of the untyped `session.Values` map; `test` asserts it to
`bool`. -/
inductive SessionValue where
  | boolVal : Bool → SessionValue
  | otherVal : SessionValue
  deriving DecidableEq, Repr

/-- `login` (auth.go:41-80).  `decoded` is the result of decoding the JSON
body into a `domain.User`; `fwdProto` is the `X-Forwarded-Proto` header;
`authLogin` is `h.service.Login`.  Returns the HTTP status and the session
cookie written by `session.Save` (no cookie is written on the 400 and 401
paths, which return before `Save`). -/
def login (opts0 : CookieOptions) (baseURL : String) (decoded : Option User)
    (fwdProto : String) (authLogin : String → String → Except String User) :
    Nat × Option SessionCookie :=
  match decoded with
  | none => (400, none)
  | some data =>
    let opts1 : CookieOptions :=
      { opts0 with httpOnly := true, sameSite := SameSite.lax, path := baseURL }
    let opts2 : CookieOptions :=
      if fwdProto = "https" then
        { opts1 with secure := true, sameSite := SameSite.strict }
      else opts1
    match authLogin data.username data.password with
    | Except.error _ => (401, none)
    | Except.ok _ => (204, some ⟨opts2, true⟩)

/-- `test` (auth.go:94-106): 204 when `session.Values["authenticated"]`
is the boolean `true`, 403 otherwise (missing key, non-bool value or
`false`). -/
def testHandler (sessionValues : List (String × SessionValue)) : Nat :=
  match sessionValues.lookup "authenticated" with
  | some (SessionValue.boolVal true) => 204
  | _ => 403

/-- The `session.Values` a later request carries, as materialised from the
cookie written by `login` (no cookie → empty session). -/
def sessionValuesOfCookie : Option SessionCookie → List (String × SessionValue)
  | none => []
  | some c => [("authenticated", SessionValue.boolVal c.authenticated)]

/-! ### Announce parser and the Redacted definition

The parse-rule engine itself (`internal/announce`) is not part of the
reviewed tree; the matcher, variable binding and template renderer below are
modelled from the spec (§4.3).  The pattern, vars and torrenturl template
are translated from `internal/indexer/definitions/red.yaml`, which is. -/

/-- Modelled from the spec: the abstract syntax of the regular expressions
the bundled definitions use — literals, `.`, character classes, sequencing,
preferred alternatives, greedy `*` and ordered capture groups. -/
inductive Re where
  | eps : Re
  | anyChar : Re
  | lit : Char → Re
  | cls : List Char → Re
  | seq : Re → Re → Re
  | alt : Re → Re → Re
  | star : Re → Re
  | group : Nat → Re → Re
  deriving Repr

/-- Sequence a list of regular expressions. -/
def rseq (rs : List Re) : Re := rs.foldr Re.seq Re.eps

/-- `r?` — prefer matching `r`, fall back to empty. -/
def ropt (r : Re) : Re := Re.alt r Re.eps

/-- `r+` — one `r` then greedily more. -/
def rplus (r : Re) : Re := Re.seq r (Re.star r)

/-- A literal string as a regex. -/
def rlits (s : String) : Re := rseq (s.data.map Re.lit)

/-- Modelled from the spec: backtracking regular-expression matching in
continuation-passing style, with the leftmost-first submatch semantics of
the source's regexp engine — alternatives are tried left first, `*` is
greedy (longest first), a capture group records the text its body consumed
on the accepted path.  `fuel` bounds the recursion depth. -/
def reMatch (fuel : Nat) (re : Re) (s : List Char)
    (caps : List (Nat × List Char))
    (k : List Char → List (Nat × List Char) → Option (List (Nat × List Char))) :
    Option (List (Nat × List Char)) :=
  match fuel, re with
  | 0, _ => none
  | _ + 1, Re.eps => k s caps
  | _ + 1, Re.anyChar =>
    match s with
    | [] => none
    | c :: rest => if c = '\n' then none else k rest caps
  | _ + 1, Re.lit c =>
    match s with
    | [] => none
    | c2 :: rest => if c2 = c then k rest caps else none
  | _ + 1, Re.cls cs =>
    match s with
    | [] => none
    | c2 :: rest => if cs.contains c2 then k rest caps else none
  | fuel + 1, Re.seq a b =>
    reMatch fuel a s caps (fun s2 c2 => reMatch fuel b s2 c2 k)
  | fuel + 1, Re.alt a b =>
    match reMatch fuel a s caps k with
    | some r => some r
    | none => reMatch fuel b s caps k
  | fuel + 1, Re.star a =>
    match reMatch fuel a s caps (fun s2 c2 =>
        if s2.length < s.length then reMatch fuel (Re.star a) s2 c2 k
        else none) with
    | some r => some r
    | none => k s caps
  | fuel + 1, Re.group i a =>
    reMatch fuel a s caps (fun s2 c2 =>
      k s2 ((i, s.take (s.length - s2.length)) :: c2))

/-- Modelled from the spec: unanchored leftmost search — try a match at
each successive start position, first success wins. -/
def reSearch (mfuel : Nat) (re : Re) : Nat → List Char →
    Option (List (Nat × List Char))
  | 0, _ => none
  | fuel + 1, s =>
    match reMatch mfuel re s [] (fun _ caps => some caps) with
    | some caps => some caps
    | none =>
      match s with
      | [] => none
      | _ :: rest => reSearch mfuel re fuel rest

/-- Search with enough fuel for any match over the given input. -/
def reFind (re : Re) (s : List Char) : Option (List (Nat × List Char)) :=
  reSearch (s.length * 4 + 1000) re (s.length + 1) s

/-- The characters of the `\s` class. -/
def wsChars : List Char := [' ', '\t', '\n', '\x0c', '\r']

/-- The characters of the `\d` class. -/
def digitChars : List Char := ['0', '1', '2', '3', '4', '5', '6', '7', '8', '9']

/-- The most recent capture recorded for group `i`. -/
def capLookup (i : Nat) : List (Nat × List Char) → Option (List Char)
  | [] => none
  | (j, v) :: rest => if j = i then some v else capLookup i rest

/-- The character `\x7b`. -/
def lbraceChar : Char := Char.ofNat 123

/-- The character `\x7d`. -/
def rbraceChar : Char := Char.ofNat 125

/-- Split a template tail at the closing double brace: returns the token
before it and the remainder after it. -/
def splitToken : List Char → (List Char × List Char)
  | [] => ([], [])
  | c :: rest =>
    if c = rbraceChar then
      match rest with
      | c2 :: rest2 =>
        if c2 = rbraceChar then ([], rest2)
        else
          let (t, r) := splitToken rest
          (c :: t, r)
      | [] => ([c], [])
    else
      let (t, r) := splitToken rest
      (c :: t, r)

/-- Strip surrounding spaces from a template token. -/
def trimToken (tok : List Char) : List Char :=
  ((tok.dropWhile (fun c => c == ' ')).reverse.dropWhile
    (fun c => c == ' ')).reverse

/-- Modelled from the spec: the purpose-built substituter for
`\x7b\x7b .name \x7d\x7d` tokens — each token is replaced by the bound
value of `name`, a missing variable by the empty string; other characters
are copied through. -/
def renderTemplate (bindings : List (String × String)) :
    Nat → List Char → List Char
  | 0, _ => []
  | _ + 1, [] => []
  | fuel + 1, c :: rest =>
    match rest with
    | c2 :: rest2 =>
      if c = lbraceChar ∧ c2 = lbraceChar then
        let (tok, rest3) := splitToken rest2
        let value :=
          match trimToken tok with
          | d :: nm =>
            if d = '.' then ((bindings.lookup (String.mk nm)).getD "").data
            else []
          | [] => []
        value ++ renderTemplate bindings fuel rest3
      else c :: renderTemplate bindings fuel rest
    | [] => [c]

/-- Modelled from the spec: bind the definition's `vars` names positionally
to capture groups 1, 2, …; an unset group binds the empty string. -/
def bindVars (vars : List String) (caps : List (Nat × List Char)) :
    List (String × String) :=
  ((List.range vars.length).zip vars).map
    (fun p => (p.2, String.mk ((capLookup (p.1 + 1) caps).getD [])))

/-- Substring test, used for the URL scheme check. -/
def hasSubstr (needle : List Char) : List Char → Bool
  | [] => needle.isEmpty
  | c :: rest => needle.isPrefixOf (c :: rest) || hasSubstr needle rest

/-- Modelled from the spec: the two parse rejections — the pattern did not
match (other indexers get their turn), or the rendered URL was empty /
without a scheme. -/
inductive ParseReject where
  | notApplicable : ParseReject
  | invalidRelease : ParseReject
  deriving DecidableEq, Repr

/-- Modelled from the spec: the release record the parser emits — release
name, year, category, tags, the composed download URL, and every captured
variable verbatim. -/
structure Release where
  name : String
  year : String
  category : String
  tags : String
  url : String
  vars : List (String × String)
  deriving DecidableEq, Repr

/-- Modelled from the spec: the single-line parse contract — match the
pattern (miss → `notApplicable`), bind vars positionally, merge the user
settings under the captured vars (settings lose on collision), render the
torrenturl template, reject an empty or scheme-less URL as
`invalidRelease`, else emit the release (its name is the `torrentName`
variable). -/
def parseAnnounce (pattern : Re) (vars : List String) (urlTemplate : String)
    (settings : List (String × String)) (line : String) :
    Except ParseReject Release :=
  match reFind pattern line.data with
  | none => Except.error ParseReject.notApplicable
  | some caps =>
    let varPairs := bindVars vars caps
    let bindings := varPairs ++ settings
    let url := String.mk
      (renderTemplate bindings (urlTemplate.data.length + 1) urlTemplate.data)
    if url.data.isEmpty ∨ ¬ hasSubstr "://".data url.data then
      Except.error ParseReject.invalidRelease
    else
      Except.ok
        { name := (bindings.lookup "torrentName").getD ""
          year := (bindings.lookup "year").getD ""
          category := (bindings.lookup "category").getD ""
          tags := (bindings.lookup "tags").getD ""
          url := url
          vars := varPairs }

/-- The Redacted pattern (red.yaml line 75), translated node by node:
`(.*) (?:\[(.*)\] \[(.*)\] - (.*))? -\s+https?:.*[&\?]id=(\d+) \/`
`(https?\:\/\/.*)\s* -\s*(.*)`. -/
def redPattern : Re :=
  rseq [
    Re.group 1 (Re.star Re.anyChar),
    Re.lit ' ',
    ropt (rseq [
      Re.lit '[', Re.group 2 (Re.star Re.anyChar), Re.lit ']', Re.lit ' ',
      Re.lit '[', Re.group 3 (Re.star Re.anyChar), Re.lit ']',
      Re.lit ' ', Re.lit '-', Re.lit ' ',
      Re.group 4 (Re.star Re.anyChar)]),
    Re.lit ' ', Re.lit '-',
    rplus (Re.cls wsChars),
    rlits "http", ropt (Re.lit 's'), Re.lit ':',
    Re.star Re.anyChar,
    Re.cls ['&', '?'],
    rlits "id=",
    Re.group 5 (rplus (Re.cls digitChars)),
    Re.lit ' ', Re.lit '/', Re.lit ' ',
    Re.group 6 (rseq [rlits "http", ropt (Re.lit 's'), Re.lit ':',
      Re.lit '/', Re.lit '/', Re.star Re.anyChar]),
    Re.star (Re.cls wsChars),
    Re.lit ' ', Re.lit '-',
    Re.star (Re.cls wsChars),
    Re.group 7 (Re.star Re.anyChar)]

/-- The Redacted `vars` list (red.yaml lines 76-83), bound positionally to
capture groups 1-7. -/
def redVars : List String :=
  ["torrentName", "year", "category", "releaseTags", "torrentId", "baseUrl",
    "tags"]

/-- The Redacted `match.torrenturl` template (red.yaml line 86). -/
def redTorrentUrlTemplate : String :=
  "\x7b\x7b .baseUrl \x7d\x7d&authkey=\x7b\x7b .authkey \x7d\x7d&torrent_pass=\x7b\x7b .torrent_pass \x7d\x7d"

deriving instance DecidableEq for Except

/-! ### Lemmas about the handlers map -/

theorem findHandler_eraseHandler (key : HandlerKey)
    (l : List (HandlerKey × Handler)) :
    findHandler key (eraseHandler key l) = none := by
  induction l with
  | nil => rfl
  | cons kh rest ih =>
    by_cases h : kh.1 = key
    · simpa [eraseHandler, h] using ih
    · simp [eraseHandler, findHandler, h, ih]

theorem eraseHandler_eraseHandler (key : HandlerKey)
    (l : List (HandlerKey × Handler)) :
    eraseHandler key (eraseHandler key l) = eraseHandler key l := by
  induction l with
  | nil => rfl
  | cons kh rest ih =>
    by_cases h : kh.1 = key
    · simpa [eraseHandler, h] using ih
    · simp [eraseHandler, h, ih]

theorem eraseHandler_setHandler (key : HandlerKey) (h : Handler)
    (l : List (HandlerKey × Handler)) :
    eraseHandler key (setHandler key h l) = eraseHandler key l := by
  induction l with
  | nil => rfl
  | cons kh rest ih =>
    by_cases hk : kh.1 = key
    · simp [setHandler, eraseHandler, hk]
    · simp [setHandler, eraseHandler, hk, ih]

theorem eraseHandler_of_findHandler_none (key : HandlerKey)
    (l : List (HandlerKey × Handler)) (h : findHandler key l = none) :
    eraseHandler key l = l := by
  induction l with
  | nil => rfl
  | cons kh rest ih =>
    by_cases hk : kh.1 = key
    · simp [findHandler, hk] at h
    · simp [findHandler, hk] at h
      simp [eraseHandler, hk, ih h]

/-! ### Claims C9, C10: the stop primitives -/

/-- C9.  `StopAndRemoveNetwork` is idempotent: the first call returns `nil`,
and the second call on the resulting state is a no-op that returns `nil`
again, leaving the state exactly as after the first call and issuing no
action. -/
theorem stopAndRemove_idempotent (s : ServiceState) (key : HandlerKey) :
    (StopAndRemoveNetwork s key).1 = Except.ok () ∧
      StopAndRemoveNetwork (StopAndRemoveNetwork s key).2.1 key =
        (Except.ok (), (StopAndRemoveNetwork s key).2.1, []) := by
  unfold StopAndRemoveNetwork
  cases hf : findHandler key s.handlers with
  | none => simp [hf]
  | some h => simp [findHandler_eraseHandler]

/-- C10.  `StopNetwork`, `StopNetworkIfRunning` and `StopAndRemoveNetwork`
always return `nil`; on a key with no handler they are silent no-ops; and in
every case they leave the `stopWG` field and every handlers-map entry other
than the given key unchanged. -/
theorem stop_primitives_total (s : ServiceState) (key : HandlerKey) :
    (StopNetwork s key).1 = Except.ok () ∧
      (StopNetworkIfRunning s key).1 = Except.ok () ∧
      (StopAndRemoveNetwork s key).1 = Except.ok () ∧
      (findHandler key s.handlers = none →
        StopNetwork s key = (Except.ok (), s, []) ∧
          StopNetworkIfRunning s key = (Except.ok (), s, []) ∧
          StopAndRemoveNetwork s key = (Except.ok (), s, [])) ∧
      (StopNetwork s key).2.1.stopWG = s.stopWG ∧
      (StopNetworkIfRunning s key).2.1.stopWG = s.stopWG ∧
      (StopAndRemoveNetwork s key).2.1.stopWG = s.stopWG ∧
      eraseHandler key (StopNetwork s key).2.1.handlers =
        eraseHandler key s.handlers ∧
      eraseHandler key (StopNetworkIfRunning s key).2.1.handlers =
        eraseHandler key s.handlers ∧
      eraseHandler key (StopAndRemoveNetwork s key).2.1.handlers =
        eraseHandler key s.handlers := by
  unfold StopNetwork StopNetworkIfRunning StopAndRemoveNetwork
  cases hf : findHandler key s.handlers with
  | none => simp
  | some h => simp [eraseHandler_setHandler, eraseHandler_eraseHandler]

/-- C10 witness: the facts of `stop_primitives_total` at the empty
supervisor and a concrete key, with the no-handler hypothesis discharged. -/
theorem stop_primitives_total_witness :
    StopNetwork ⟨[], 0⟩ ⟨"irc.example.net", "bot"⟩ =
        (Except.ok (), ⟨[], 0⟩, []) ∧
      StopNetworkIfRunning ⟨[], 0⟩ ⟨"irc.example.net", "bot"⟩ =
        (Except.ok (), ⟨[], 0⟩, []) ∧
      StopAndRemoveNetwork ⟨[], 0⟩ ⟨"irc.example.net", "bot"⟩ =
        (Except.ok (), ⟨[], 0⟩, []) :=
  (stop_primitives_total ⟨[], 0⟩ ⟨"irc.example.net", "bot"⟩).2.2.2.1 rfl

/-! ### Claims C4, C5: `UpdateNetwork` -/

/-- C4.  When persisting the channels (`StoreNetworkChannels`, run only for
a non-nil channel slice) or the network (`repo.UpdateNetwork`) fails,
`UpdateNetwork` returns that error with the supervisor state untouched and
an empty session trace: no restart, nick change, identify, join, part or
handler removal. -/
theorem updateNetwork_persist_error (s : ServiceState) (network : IrcNetwork)
    (storeChannelsRes updateRes : Except String Unit)
    (repoChannels : List IrcChannel) (e : String)
    (h : (network.channels.isSome ∧ storeChannelsRes = Except.error e) ∨
      ((network.channels.isSome → storeChannelsRes = Except.ok ()) ∧
        updateRes = Except.error e)) :
    UpdateNetwork s network storeChannelsRes updateRes repoChannels =
      (Except.error e, s, []) := by
  unfold UpdateNetwork
  rcases h with ⟨hsome, herr⟩ | ⟨hok, herr⟩
  · cases hch : network.channels with
    | none => simp [hch] at hsome
    | some chs => simp [herr]
  · cases hch : network.channels with
    | none =>
      cases storeChannelsRes <;> simp [herr]
    | some chs =>
      have := hok (by simp [hch])
      simp [this, herr]

/-- C4 witness: a failing `StoreNetworkChannels` on a network with a non-nil
channel list aborts `UpdateNetwork` with that error, leaving the state and
trace empty. -/
theorem updateNetwork_persist_error_witness :
    UpdateNetwork ⟨[], 0⟩
        ⟨1, "net", "irc.example.net", 6697, true, "", "", ⟨"bot", "pw"⟩, true,
          some [⟨"#a", ""⟩]⟩
        (Except.error "db down") (Except.ok ()) [] =
      (Except.error "db down", ⟨[], 0⟩, []) :=
  updateNetwork_persist_error ⟨[], 0⟩
    ⟨1, "net", "irc.example.net", 6697, true, "", "", ⟨"bot", "pw"⟩, true,
      some [⟨"#a", ""⟩]⟩
    (Except.error "db down") (Except.ok ()) [] "db down"
    (Or.inl ⟨by decide, rfl⟩)

/-- C5.  A successful `UpdateNetwork` on a disabled network leaves no
handlers-map entry for the network's key, and when an entry was present the
handler is stopped (the `Stop` signal is the sole emitted action) before the
entry is removed. -/
theorem updateNetwork_disabled_removes (s : ServiceState)
    (network : IrcNetwork) (storeChannelsRes updateRes : Except String Unit)
    (repoChannels : List IrcChannel)
    (hdis : network.enabled = false)
    (hstore : network.channels.isSome → storeChannelsRes = Except.ok ())
    (hupd : updateRes = Except.ok ()) :
    (UpdateNetwork s network storeChannelsRes updateRes repoChannels).1 =
        Except.ok () ∧
      findHandler network.key
        (UpdateNetwork s network storeChannelsRes updateRes
          repoChannels).2.1.handlers = none ∧
      ((findHandler network.key s.handlers).isSome →
        (UpdateNetwork s network storeChannelsRes updateRes
          repoChannels).2.2 = [Action.stop network.key]) := by
  unfold UpdateNetwork StopAndRemoveNetwork
  cases hch : network.channels with
  | none =>
    cases hf : findHandler network.key s.handlers with
    | none =>
      cases storeChannelsRes <;> simp [hupd, hdis, hf]
    | some h =>
      cases storeChannelsRes <;> simp [hupd, hdis, hf, findHandler_eraseHandler]
  | some chs =>
    have := hstore (by simp [hch])
    cases hf : findHandler network.key s.handlers with
    | none => simp [this, hupd, hdis, hf]
    | some h => simp [this, hupd, hdis, hf, findHandler_eraseHandler]

/-- C5 witness: disabling a network whose handler is live removes the entry
and emits exactly the `Stop` signal. -/
theorem updateNetwork_disabled_removes_witness :
    (UpdateNetwork
          ⟨[(⟨"irc.example.net", "bot"⟩,
              ⟨⟨1, "net", "irc.example.net", 6697, true, "", "",
                  ⟨"bot", "pw"⟩, true, some [⟨"#a", ""⟩]⟩, true, false⟩)], 0⟩
          ⟨1, "net", "irc.example.net", 6697, true, "", "", ⟨"bot", "pw"⟩,
            false, none⟩
          (Except.ok ()) (Except.ok ()) []).1 = Except.ok () ∧
      findHandler ⟨"irc.example.net", "bot"⟩
        (UpdateNetwork
          ⟨[(⟨"irc.example.net", "bot"⟩,
              ⟨⟨1, "net", "irc.example.net", 6697, true, "", "",
                  ⟨"bot", "pw"⟩, true, some [⟨"#a", ""⟩]⟩, true, false⟩)], 0⟩
          ⟨1, "net", "irc.example.net", 6697, true, "", "", ⟨"bot", "pw"⟩,
            false, none⟩
          (Except.ok ()) (Except.ok ()) []).2.1.handlers = none ∧
      (UpdateNetwork
          ⟨[(⟨"irc.example.net", "bot"⟩,
              ⟨⟨1, "net", "irc.example.net", 6697, true, "", "",
                  ⟨"bot", "pw"⟩, true, some [⟨"#a", ""⟩]⟩, true, false⟩)], 0⟩
          ⟨1, "net", "irc.example.net", 6697, true, "", "", ⟨"bot", "pw"⟩,
            false, none⟩
          (Except.ok ()) (Except.ok ()) []).2.2 =
        [Action.stop ⟨"irc.example.net", "bot"⟩] := by
  have h := updateNetwork_disabled_removes
    ⟨[(⟨"irc.example.net", "bot"⟩,
        ⟨⟨1, "net", "irc.example.net", 6697, true, "", "",
            ⟨"bot", "pw"⟩, true, some [⟨"#a", ""⟩]⟩, true, false⟩)], 0⟩
    ⟨1, "net", "irc.example.net", 6697, true, "", "", ⟨"bot", "pw"⟩,
      false, none⟩
    (Except.ok ()) (Except.ok ()) [] rfl (fun hx => rfl) rfl
  exact ⟨h.1, h.2.1, h.2.2 (by decide)⟩

/-! ### Claims C1–C3: `checkIfNetworkRestartNeeded` on a live handler -/

theorem channelsToLeave_self (l : List IrcChannel) :
    channelsToLeave l l = [] := by
  have : l.filter (fun hc => ! l.any (fun c => c.name == hc.name)) = [] := by
    rw [List.filter_eq_nil_iff]
    intro a ha
    simp only [Bool.not_eq_true', Bool.not_eq_false, List.any_eq_true]
    exact ⟨a, ha, by simp⟩
  simp [channelsToLeave, this]

theorem channelsToJoin_self (l : List IrcChannel) :
    channelsToJoin l l = [] := by
  rw [channelsToJoin, List.filter_eq_nil_iff]
  intro a ha
  simp only [Bool.not_eq_true', Bool.not_eq_false, List.any_eq_true]
  exact ⟨a, ha, by simp⟩

theorem restartNeeded_eq_false (handler network : IrcNetwork)
    (hsrv : handler.server = network.server)
    (hport : handler.port = network.port)
    (htls : handler.tls = network.tls)
    (hinv : handler.inviteCommand = network.inviteCommand) :
    restartNeeded handler network = false := by
  simp [restartNeeded, hsrv, hport, htls, hinv]

/-- C1 (amended: the source compares channel names exactly, without
lowercasing).  For a live connected handler whose updated configuration
shares its key and keeps the transport fields and the NickServ password
unchanged, reconciliation issues exactly one PART per channel only in the
handler's set and one JOIN (carrying the join password) per channel only in
the network's set — the sets compared by exact channel-name equality —
followed by the snapshot refresh, and issues no NICK change and no
restart. -/
theorem reconcile_channel_delta (s : ServiceState) (network : IrcNetwork)
    (h : Handler) (repoChannels : List IrcChannel)
    (hfind : findHandler network.key s.handlers = some h)
    (hconn : h.connected = true)
    (hsrv : h.network.server = network.server)
    (hport : h.network.port = network.port)
    (htls : h.network.tls = network.tls)
    (hinv : h.network.inviteCommand = network.inviteCommand)
    (hacc : h.network.nickServ.account = network.nickServ.account)
    (hpass : h.network.nickServ.password = network.nickServ.password) :
    (checkIfNetworkRestartNeeded s network repoChannels).2 =
        (channelsToLeave h.network.channelList network.channelList).map
            Action.part ++
          (channelsToJoin h.network.channelList network.channelList).map
            (fun c => Action.join c.name c.password) ++
          [Action.setNetwork, Action.initIndexers] ∧
      Action.restart ∉ (checkIfNetworkRestartNeeded s network repoChannels).2 ∧
      (∀ nick, Action.nickChange nick ∉
        (checkIfNetworkRestartNeeded s network repoChannels).2) := by
  have hrn := restartNeeded_eq_false h.network network hsrv hport htls hinv
  rw [checkIfNetworkRestartNeeded, hfind]
  simp only [hconn, if_true, hrn, Bool.false_eq_true, if_false]
  refine ⟨by simp [nickActions, hacc, hpass], ?_, ?_⟩
  · simp [nickActions, hacc, hpass]
  · intro nick
    simp [nickActions, hacc, hpass]

/-- C1 witness: a handler joined to `#a,#b` updated to channels `#b,#c`
(password `pw` on `#c`) produces exactly `PART #a` then `JOIN #c pw`, plus
the snapshot refresh — no NICK, no restart. -/
theorem reconcile_channel_delta_witness :
    (checkIfNetworkRestartNeeded
        ⟨[(⟨"irc.example.net", "bot"⟩,
            ⟨⟨1, "net", "irc.example.net", 6697, true, "", "inv",
                ⟨"bot", "pw"⟩, true, some [⟨"#a", ""⟩, ⟨"#b", ""⟩]⟩,
              true, false⟩)], 0⟩
        ⟨1, "net", "irc.example.net", 6697, true, "", "inv", ⟨"bot", "pw"⟩,
          true, some [⟨"#b", ""⟩, ⟨"#c", "pw"⟩]⟩ []).2 =
      [Action.part "#a", Action.join "#c" "pw",
        Action.setNetwork, Action.initIndexers] :=
  ((reconcile_channel_delta
      ⟨[(⟨"irc.example.net", "bot"⟩,
          ⟨⟨1, "net", "irc.example.net", 6697, true, "", "inv",
              ⟨"bot", "pw"⟩, true, some [⟨"#a", ""⟩, ⟨"#b", ""⟩]⟩,
            true, false⟩)], 0⟩
      ⟨1, "net", "irc.example.net", 6697, true, "", "inv", ⟨"bot", "pw"⟩,
        true, some [⟨"#b", ""⟩, ⟨"#c", "pw"⟩]⟩
      ⟨⟨1, "net", "irc.example.net", 6697, true, "", "inv",
          ⟨"bot", "pw"⟩, true, some [⟨"#a", ""⟩, ⟨"#b", ""⟩]⟩,
        true, false⟩ []
      (by decide) rfl rfl rfl rfl rfl rfl rfl).1).trans (by decide)

/-- C1 counterexample to the lowercased comparison: with the handler on
`#A` and the network on `#a`, the claim's lowercased set difference is
empty on both sides (so it predicts no PART and no JOIN), yet the code
issues `PART #A` and `JOIN #a`. -/
theorem reconcile_channel_delta_counterexample :
    specChannelsToLeave [⟨"#A", ""⟩] [⟨"#a", ""⟩] = [] ∧
      specChannelsToJoin [⟨"#A", ""⟩] [⟨"#a", ""⟩] = [] ∧
      (checkIfNetworkRestartNeeded
          ⟨[(⟨"irc.example.net", "bot"⟩,
              ⟨⟨1, "net", "irc.example.net", 6697, true, "", "inv",
                  ⟨"bot", "pw"⟩, true, some [⟨"#A", ""⟩]⟩, true, false⟩)], 0⟩
          ⟨1, "net", "irc.example.net", 6697, true, "", "inv", ⟨"bot", "pw"⟩,
            true, some [⟨"#a", ""⟩]⟩ []).2 =
        [Action.part "#A", Action.join "#a" "",
          Action.setNetwork, Action.initIndexers] := by
  refine ⟨by decide, by decide, ?_⟩
  decide

/-- C2 (amended: the transport-affecting fields are server, port, TLS and
invite command; the server password is *not* inspected).  A change in any
of those four fields on a live connected handler makes reconciliation swap
in the updated configuration and restart — and do nothing else on the old
session: no nick change, re-identify, join or part. -/
theorem reconcile_transport_restart (s : ServiceState) (network : IrcNetwork)
    (h : Handler) (repoChannels : List IrcChannel)
    (hfind : findHandler network.key s.handlers = some h)
    (hconn : h.connected = true)
    (hdiff : h.network.server ≠ network.server ∨
      h.network.port ≠ network.port ∨ h.network.tls ≠ network.tls ∨
      h.network.inviteCommand ≠ network.inviteCommand) :
    checkIfNetworkRestartNeeded s network repoChannels =
      (⟨setHandler network.key { h with network := network } s.handlers,
          s.stopWG⟩,
        [Action.updateNetworkH, Action.restart]) := by
  have hrn : restartNeeded h.network network = true := by
    simp only [restartNeeded, Bool.or_eq_true, bne_iff_ne]
    tauto
  rw [checkIfNetworkRestartNeeded, hfind]
  simp [hconn, hrn]

/-- C2 witness: changing only the port (6697 → 7000) of a live connected
handler yields exactly the snapshot swap plus restart. -/
theorem reconcile_transport_restart_witness :
    checkIfNetworkRestartNeeded
        ⟨[(⟨"irc.example.net", "bot"⟩,
            ⟨⟨1, "net", "irc.example.net", 6697, true, "", "inv",
                ⟨"bot", "pw"⟩, true, some [⟨"#a", ""⟩]⟩, true, false⟩)], 0⟩
        ⟨1, "net", "irc.example.net", 7000, true, "", "inv", ⟨"bot", "pw"⟩,
          true, some [⟨"#a", ""⟩]⟩ [] =
      (⟨[(⟨"irc.example.net", "bot"⟩,
            ⟨⟨1, "net", "irc.example.net", 7000, true, "", "inv",
                ⟨"bot", "pw"⟩, true, some [⟨"#a", ""⟩]⟩, true, false⟩)], 0⟩,
        [Action.updateNetworkH, Action.restart]) :=
  (reconcile_transport_restart
      ⟨[(⟨"irc.example.net", "bot"⟩,
          ⟨⟨1, "net", "irc.example.net", 6697, true, "", "inv",
              ⟨"bot", "pw"⟩, true, some [⟨"#a", ""⟩]⟩, true, false⟩)], 0⟩
      ⟨1, "net", "irc.example.net", 7000, true, "", "inv", ⟨"bot", "pw"⟩,
        true, some [⟨"#a", ""⟩]⟩
      ⟨⟨1, "net", "irc.example.net", 6697, true, "", "inv",
          ⟨"bot", "pw"⟩, true, some [⟨"#a", ""⟩]⟩, true, false⟩ []
      (by decide) rfl (Or.inr (Or.inl (by decide)))).trans (by decide)

/-- C2 counterexample to the claim as stated: a change of the server
password alone (all other fields identical) triggers no disconnect or
reconnect — the trace is only the snapshot refresh, with no `restart`. -/
theorem reconcile_transport_restart_counterexample :
    (⟨1, "net", "irc.example.net", 6697, true, "oldpass", "inv",
        ⟨"bot", "pw"⟩, true, some [⟨"#a", ""⟩]⟩ : IrcNetwork).pass ≠
        (⟨1, "net", "irc.example.net", 6697, true, "newpass", "inv",
          ⟨"bot", "pw"⟩, true, some [⟨"#a", ""⟩]⟩ : IrcNetwork).pass ∧
      (checkIfNetworkRestartNeeded
          ⟨[(⟨"irc.example.net", "bot"⟩,
              ⟨⟨1, "net", "irc.example.net", 6697, true, "oldpass", "inv",
                  ⟨"bot", "pw"⟩, true, some [⟨"#a", ""⟩]⟩, true, false⟩)], 0⟩
          ⟨1, "net", "irc.example.net", 6697, true, "newpass", "inv",
            ⟨"bot", "pw"⟩, true, some [⟨"#a", ""⟩]⟩ []).2 =
        [Action.setNetwork, Action.initIndexers] ∧
      Action.restart ∉
        (checkIfNetworkRestartNeeded
          ⟨[(⟨"irc.example.net", "bot"⟩,
              ⟨⟨1, "net", "irc.example.net", 6697, true, "oldpass", "inv",
                  ⟨"bot", "pw"⟩, true, some [⟨"#a", ""⟩]⟩, true, false⟩)], 0⟩
          ⟨1, "net", "irc.example.net", 6697, true, "newpass", "inv",
            ⟨"bot", "pw"⟩, true, some [⟨"#a", ""⟩]⟩ []).2 := by
  refine ⟨by decide, ?_, ?_⟩ <;> decide

/-- C3.  When only the NickServ password differs (server, port, TLS, invite
command, account and channel list all unchanged) on a live connected
handler, reconciliation re-identifies on the live session
(`HandleNickServIdentify`) and refreshes the snapshot; it issues no restart
and no stop, so the active session is kept. -/
theorem reconcile_nickserv_password (s : ServiceState) (network : IrcNetwork)
    (h : Handler) (repoChannels : List IrcChannel)
    (hfind : findHandler network.key s.handlers = some h)
    (hconn : h.connected = true)
    (hsrv : h.network.server = network.server)
    (hport : h.network.port = network.port)
    (htls : h.network.tls = network.tls)
    (hinv : h.network.inviteCommand = network.inviteCommand)
    (hacc : h.network.nickServ.account = network.nickServ.account)
    (hpass : h.network.nickServ.password ≠ network.nickServ.password)
    (hch : h.network.channels = network.channels) :
    (checkIfNetworkRestartNeeded s network repoChannels).2 =
        [Action.nickServIdentify network.nickServ.account
            network.nickServ.password,
          Action.setNetwork, Action.initIndexers] ∧
      Action.restart ∉ (checkIfNetworkRestartNeeded s network repoChannels).2 ∧
      (∀ key, Action.stop key ∉
        (checkIfNetworkRestartNeeded s network repoChannels).2) := by
  have hrn := restartNeeded_eq_false h.network network hsrv hport htls hinv
  have hcl : h.network.channelList = network.channelList := by
    simp [IrcNetwork.channelList, hch]
  rw [checkIfNetworkRestartNeeded, hfind]
  simp only [hconn, if_true, hrn, Bool.false_eq_true, if_false]
  refine ⟨?_, ?_, ?_⟩
  · simp [nickActions, hacc, hpass, hcl, channelsToLeave_self,
      channelsToJoin_self]
  · simp [nickActions, hacc, hpass, hcl, channelsToLeave_self,
      channelsToJoin_self]
  · intro key
    simp [nickActions, hacc, hpass, hcl, channelsToLeave_self,
      channelsToJoin_self]

/-- C3 witness: updating only the NickServ password of a live connected
handler produces exactly the re-identify plus the snapshot refresh. -/
theorem reconcile_nickserv_password_witness :
    (checkIfNetworkRestartNeeded
        ⟨[(⟨"irc.example.net", "bot"⟩,
            ⟨⟨1, "net", "irc.example.net", 6697, true, "", "inv",
                ⟨"bot", "oldpw"⟩, true, some [⟨"#a", ""⟩]⟩, true, false⟩)], 0⟩
        ⟨1, "net", "irc.example.net", 6697, true, "", "inv", ⟨"bot", "newpw"⟩,
          true, some [⟨"#a", ""⟩]⟩ []).2 =
      [Action.nickServIdentify "bot" "newpw",
        Action.setNetwork, Action.initIndexers] :=
  (reconcile_nickserv_password
      ⟨[(⟨"irc.example.net", "bot"⟩,
          ⟨⟨1, "net", "irc.example.net", 6697, true, "", "inv",
              ⟨"bot", "oldpw"⟩, true, some [⟨"#a", ""⟩]⟩, true, false⟩)], 0⟩
      ⟨1, "net", "irc.example.net", 6697, true, "", "inv", ⟨"bot", "newpw"⟩,
        true, some [⟨"#a", ""⟩]⟩
      ⟨⟨1, "net", "irc.example.net", 6697, true, "", "inv",
          ⟨"bot", "oldpw"⟩, true, some [⟨"#a", ""⟩]⟩, true, false⟩ []
      (by decide) rfl rfl rfl rfl rfl rfl (by decide) rfl).1

/-! ### Claim C8: `StopHandlers` and the `stopWG` barrier -/

/-- C8 evidence.  `StopHandlers` signals `Stop` to each handler one after
the other from the calling goroutine and then returns: its trace is exactly
the per-handler `Stop` signals and never contains a barrier wait
(`stopWG.Wait()` is not called anywhere in `StopHandlers`).  Moreover the
`StartHandlers` loop body does `stopWG.Add(1)` and `stopWG.Done()` in the
loop itself, so the counter returns to its previous value immediately and
never tracks a running `Run` goroutine — there is no barrier that could
observe the goroutines' exit. -/
theorem stopHandlers_no_barrier (s : ServiceState) :
    (StopHandlers s).2 = s.handlers.map (fun kh => Action.stop kh.1) ∧
      Action.wgWait ∉ (StopHandlers s).2 ∧
      (StopHandlers s).1.stopWG = s.stopWG ∧
      (∀ network repoChannels,
        (startHandlersStep s network repoChannels).1.stopWG = s.stopWG) := by
  refine ⟨rfl, ?_, rfl, ?_⟩
  · simp [StopHandlers]
  · intro network repoChannels
    by_cases hen : network.enabled = true
    · simp [startHandlersStep, hen]
    · simp [startHandlersStep, hen]

/-! ### Claim C7: the auth flow -/

/-- C7.  `POST /login`: an undecodable body yields 400; credentials the
auth service rejects yield 401 with no session cookie written; accepted
credentials yield 204 and a session cookie whose store options carry
`HttpOnly`.  A later `GET /test` carrying the session from that cookie
yields 204, and one with no session yields 403. -/
theorem auth_flow (opts0 : CookieOptions) (baseURL fwdProto : String)
    (authLogin : String → String → Except String User) (u : User) :
    login opts0 baseURL none fwdProto authLogin = (400, none) ∧
      (∀ e, authLogin u.username u.password = Except.error e →
        login opts0 baseURL (some u) fwdProto authLogin = (401, none)) ∧
      (∀ v, authLogin u.username u.password = Except.ok v →
        (login opts0 baseURL (some u) fwdProto authLogin).1 = 204 ∧
          (login opts0 baseURL (some u) fwdProto authLogin).2.map
              (fun c => c.options.httpOnly) = some true ∧
          testHandler (sessionValuesOfCookie
            (login opts0 baseURL (some u) fwdProto authLogin).2) = 204) ∧
      testHandler (sessionValuesOfCookie none) = 403 := by
  refine ⟨rfl, ?_, ?_, rfl⟩
  · intro e he
    simp [login, he]
  · intro v hv
    by_cases hfwd : fwdProto = "https" <;>
      simp [login, hv, hfwd, testHandler, sessionValuesOfCookie]

/-- C7 witness: with a concrete auth service accepting exactly
`alice`/`hunter2`, a wrong password gets 401 and no cookie, the right one
gets 204 with an HttpOnly cookie whose session then passes `GET /test`. -/
theorem auth_flow_witness :
    login ⟨false, false, SameSite.defaultMode, "/"⟩ "/" (some ⟨"alice", "wrong"⟩)
        ""
        (fun a b =>
          if a = "alice" ∧ b = "hunter2" then Except.ok ⟨"alice", "hunter2"⟩
          else Except.error "invalid credentials") = (401, none) ∧
      (login ⟨false, false, SameSite.defaultMode, "/"⟩ "/"
          (some ⟨"alice", "hunter2"⟩) ""
          (fun a b =>
            if a = "alice" ∧ b = "hunter2" then Except.ok ⟨"alice", "hunter2"⟩
            else Except.error "invalid credentials")).1 = 204 ∧
      testHandler (sessionValuesOfCookie
        (login ⟨false, false, SameSite.defaultMode, "/"⟩ "/"
          (some ⟨"alice", "hunter2"⟩) ""
          (fun a b =>
            if a = "alice" ∧ b = "hunter2" then Except.ok ⟨"alice", "hunter2"⟩
            else Except.error "invalid credentials")).2) = 204 := by
  refine ⟨?_, ?_, ?_⟩
  · exact (auth_flow ⟨false, false, SameSite.defaultMode, "/"⟩ "/" ""
      (fun a b =>
        if a = "alice" ∧ b = "hunter2" then Except.ok ⟨"alice", "hunter2"⟩
        else Except.error "invalid credentials")
      ⟨"alice", "wrong"⟩).2.1 "invalid credentials" rfl
  · exact ((auth_flow ⟨false, false, SameSite.defaultMode, "/"⟩ "/" ""
      (fun a b =>
        if a = "alice" ∧ b = "hunter2" then Except.ok ⟨"alice", "hunter2"⟩
        else Except.error "invalid credentials")
      ⟨"alice", "hunter2"⟩).2.2.1 ⟨"alice", "hunter2"⟩ rfl).1
  · exact ((auth_flow ⟨false, false, SameSite.defaultMode, "/"⟩ "/" ""
      (fun a b =>
        if a = "alice" ∧ b = "hunter2" then Except.ok ⟨"alice", "hunter2"⟩
        else Except.error "invalid credentials")
      ⟨"alice", "hunter2"⟩).2.2.1 ⟨"alice", "hunter2"⟩ rfl).2.2

/-! ### Claim C6: the Redacted single-line parse -/

set_option maxRecDepth 400000 in
/-- C6.  Parsing the concrete Redacted announce line with the definition's
pattern, vars and torrenturl template and settings
`authkey = "AK"`, `torrent_pass = "TP"` yields a release named
`Artist - Album`, year `2008`, category `Single`, the tag list verbatim,
and the download URL composed from `baseUrl` with the two secrets
appended. -/
theorem red_single_line_parse :
    parseAnnounce redPattern redVars redTorrentUrlTemplate
        [("authkey", "AK"), ("torrent_pass", "TP")]
        "Artist - Album [2008] [Single] - FLAC / Lossless / Log / 100% / Cue / CD - https://redacted.ch/torrents.php?id=123 / https://redacted.ch/torrents.php?action=download&id=123 - hip.hop,rhythm.and.blues,2000s" =
      Except.ok
        { name := "Artist - Album"
          year := "2008"
          category := "Single"
          tags := "hip.hop,rhythm.and.blues,2000s"
          url := "https://redacted.ch/torrents.php?action=download&id=123&authkey=AK&torrent_pass=TP"
          vars := [("torrentName", "Artist - Album"),
            ("year", "2008"),
            ("category", "Single"),
            ("releaseTags", "FLAC / Lossless / Log / 100% / Cue / CD"),
            ("torrentId", "123"),
            ("baseUrl", "https://redacted.ch/torrents.php?action=download&id=123"),
            ("tags", "hip.hop,rhythm.and.blues,2000s")] } := by
  decide

end Autobrr
